import Mathlib

/-!
# Verification of the cs3-jupyter-client sidebar core

This development embeds, in Lean 4, the data model and operations of the
cs3org/jupyter-client JupyterLab extension: the plugin registration code of
`src/index.ts` (present in the repository) and the remote-namespace
resolution/synchronization core (PathResolver, EntityListModel, QuotaTracker)
described by the repository's specification.  The implementation files of
that core are not part of the provided sources, so those components are
modelled from the specification's own words; every definition taken from the
spec carries a doc comment starting with `Modelled from the spec:`.
-/

namespace CS3

/-! ## Data model -/

/-- Modelled from the spec: an entity (share or space) as consumed by
`PathResolver.resolve`: `{id, displayName, remotePath}`.  The implementation
file defining the entity records is not under `src/`.  Fields irrelevant to
resolution (ownerId, grantedAt, permissions, quota) are omitted. -/
structure Entity where
  id : String
  displayName : String
  remotePath : String
deriving DecidableEq

/-- Modelled from the spec: `QuotaSnapshot { usedBytes: u64, totalBytes: u64 }`
(the `fetchedAt` timestamp plays no role in classification and is omitted).
The implementation file defining it is not under `src/`. -/
structure QuotaSnapshot where
  usedBytes : Nat
  totalBytes : Nat
deriving DecidableEq

/-- Modelled from the spec: the classification lattice
`{normal, warning, critical}` plus `unknown` for `totalBytes == 0`. -/
inductive QuotaClass where
  | normal
  | warning
  | critical
  | unknown
deriving DecidableEq

/-! ## QuotaTracker (modelled from the spec, §4.4) -/

/-- Modelled from the spec: the "normalized fraction-used value" exposed by
QuotaTracker; `totalBytes == 0` denotes unknown/unlimited and "must suppress
fraction computation (never divide by zero)", hence the `Option`. -/
def fractionUsed (s : QuotaSnapshot) : Option ℚ :=
  if s.totalBytes = 0 then none
  else some ((s.usedBytes : ℚ) / (s.totalBytes : ℚ))

/-- Modelled from the spec:
`classify(snapshot) -> {normal, warning, critical}` using fixed thresholds
(warning at ≥80% used, critical at ≥95% used) computed only when
`totalBytes > 0`; returns `unknown` otherwise.  The QuotaTracker
implementation is not under `src/`. -/
def classify (s : QuotaSnapshot) : QuotaClass :=
  match fractionUsed s with
  | none => .unknown
  | some f =>
    if (95 : ℚ) / 100 ≤ f then .critical
    else if (80 : ℚ) / 100 ≤ f then .warning
    else .normal

/-! ## PathResolver (modelled from the spec, §4.2)

The spec: "derive a candidate local path by concatenating a fixed mount
prefix with the entity's display name, sanitized (illegal path characters
replaced, leading/trailing whitespace trimmed).  If a candidate collides
with an already-assigned candidate in the same batch, append
`\" (2)\", \" (3)\", …` in the order entities were supplied"; an empty
display name degrades to the raw id. -/

/-- Modelled from the spec: leading/trailing whitespace trimming, on the
character list of a string. -/
def trimChars (cs : List Char) : List Char :=
  ((cs.dropWhile Char.isWhitespace).reverse.dropWhile Char.isWhitespace).reverse

/-- Modelled from the spec: the "illegal path characters" that sanitization
replaces (path separators, the drive/stream separator, and NUL). -/
def isIllegalPathChar (c : Char) : Bool :=
  c = '/' || c = '\\' || c = ':' || c = '\x00'

/-- Modelled from the spec: display-name sanitization — illegal path
characters replaced (by an underscore), leading/trailing whitespace
trimmed. -/
def sanitize (s : String) : String :=
  ⟨(trimChars s.data).map (fun c => if isIllegalPathChar c then '_' else c)⟩

/-- Modelled from the spec: the candidate local path of an entity — the
fixed mount root concatenated with the sanitized display name, degrading to
the raw id when the sanitized name is empty. -/
def candidate (mount : String) (e : Entity) : String :=
  let nm := sanitize e.displayName
  mount ++ "/" ++ (if nm.data.isEmpty then e.id else nm)

/-- Decimal digits of a positive number, least significant first, by
structural recursion on an explicit fuel bound (so that it evaluates inside
the kernel). -/
def digitsAux : Nat → Nat → List Nat
  | 0, _ => []
  | _ + 1, 0 => []
  | fuel + 1, n + 1 => (n + 1) % 10 :: digitsAux fuel ((n + 1) / 10)

/-- The character of a single decimal digit. -/
def digitToChar : Nat → Char
  | 0 => '0' | 1 => '1' | 2 => '2' | 3 => '3' | 4 => '4'
  | 5 => '5' | 6 => '6' | 7 => '7' | 8 => '8' | 9 => '9'
  | _ => '*'

/-- Left inverse of `digitToChar` on decimal digits. -/
def charToDigit (c : Char) : Nat := c.toNat - 48

/-- The decimal characters of a number, most significant first. -/
def natChars (n : Nat) : List Char := (digitsAux n n).reverse.map digitToChar

/-- The decimal rendering of a number as a string. -/
def natStr (n : Nat) : String := ⟨natChars n⟩

/-- Modelled from the spec: the disambiguation suffix — the candidate with
`" (k)"` appended. -/
def withSuffix (c : String) (k : Nat) : String := c ++ " (" ++ natStr k ++ ")"

/-- Modelled from the spec: search, starting at suffix index `k`, for the
first suffixed candidate not already assigned in this batch.  The fuel bound
is supplied by `pick`; one more try than there are assigned paths always
suffices. -/
def searchFrom (taken : List String) (c : String) : Nat → Nat → String
  | _, 0 => c
  | k, fuel + 1 =>
    let s := withSuffix c k
    if s ∈ taken then searchFrom taken c (k + 1) fuel else s

/-- Modelled from the spec: assign the candidate itself when free, else the
first free suffixed candidate `" (2)", " (3)", …`. -/
def pick (taken : List String) (c : String) : String :=
  if c ∈ taken then searchFrom taken c 2 (taken.length + 1) else c

/-- Modelled from the spec: resolve the batch in supplied order, threading
the set of already-assigned local paths. -/
def resolveAux (mount : String) : List Entity → List String → List (String × String)
  | [], _ => []
  | e :: es, taken =>
    let p := pick taken (candidate mount e)
    (e.id, p) :: resolveAux mount es (p :: taken)

/-- Modelled from the spec:
`resolve(entities) -> mapping from entityId to localPath`, a pure function
of the input batch.  The PathResolver implementation is not under `src/`. -/
def resolve (mount : String) (es : List Entity) : List (String × String) :=
  resolveAux mount es []

/-- Modelled from the spec: a sequence of independent `resolve` calls (one
per refresh); PathResolver keeps no memory between calls, so a call history
is just the per-batch results. -/
def resolveCalls (mount : String) (history : List (List Entity)) :
    List (List (String × String)) :=
  history.map (resolve mount)

/-! ## EntityListModel (modelled from the spec, §4.3 and §5)

The spec's event loop is single-threaded and cooperative; the suspension
points are exactly the fetch operations.  The model below is the induced
state machine: a `refreshCall` event either starts a fetch (when none is in
flight) or joins the in-flight one; a `fetchComplete` event delivers the
result of the single in-flight fetch. -/

/-- Modelled from the spec: the fetch error taxonomy of §7. -/
inductive FetchError where
  | transient
  | auth
  | malformed
deriving DecidableEq

/-- Modelled from the spec: what subscribers receive — a new snapshot on
success, a distinct "refresh failed" notification on failure. -/
inductive Notification where
  | snapshot (entities : List Entity)
  | refreshFailed (err : FetchError)
deriving DecidableEq

/-- Modelled from the spec: the observable state of an EntityListModel —
the current snapshot and whether a fetch is in flight (at most one, per
§4.3).  The implementation file is not under `src/`. -/
structure EntityListModel where
  snapshot : List Entity
  inFlight : Bool
deriving DecidableEq

/-- Modelled from the spec: `current()` returns the last successfully
fetched snapshot (empty before the first successful fetch). -/
def current (m : EntityListModel) : List Entity := m.snapshot

/-- Modelled from the spec: the events the model reacts to — a `refresh()`
call, and completion of the in-flight fetch with a result. -/
inductive ModelEvent where
  | refreshCall
  | fetchComplete (r : Except FetchError (List Entity))

/-- The outcome of processing events: final state, how many network fetches
were issued, and the notifications delivered to subscribers, in order. -/
structure StepResult where
  state : EntityListModel
  fetchesIssued : Nat
  notifications : List Notification
deriving DecidableEq

/-- Modelled from the spec: one step of the model.  `refresh()` while a
fetch is in flight joins it (no new fetch, no notification); otherwise it
issues exactly one fetch.  A completed fetch replaces the snapshot and
notifies once on success; on failure it retains the prior snapshot and
notifies "refresh failed". -/
def stepModel (m : EntityListModel) : ModelEvent → StepResult
  | .refreshCall =>
    if m.inFlight then ⟨m, 0, []⟩
    else ⟨⟨m.snapshot, true⟩, 1, []⟩
  | .fetchComplete r =>
    if m.inFlight then
      match r with
      | .ok xs => ⟨⟨xs, false⟩, 0, [.snapshot xs]⟩
      | .error err => ⟨⟨m.snapshot, false⟩, 0, [.refreshFailed err]⟩
    else ⟨m, 0, []⟩

/-- Run the model over a sequence of events, accumulating issued fetches
and delivered notifications. -/
def runModel (m : EntityListModel) : List ModelEvent → StepResult
  | [] => ⟨m, 0, []⟩
  | ev :: evs =>
    let r := stepModel m ev
    let rest := runModel r.state evs
    ⟨rest.state, r.fetchesIssued + rest.fetchesIssued, r.notifications ++ rest.notifications⟩

/-! ## The plugin registrations of `src/index.ts` -/

namespace IndexTs

/-- The host-visible effects an `activate` function of `src/index.ts`
performs: a console log, adding a widget to the lab shell with a rank,
adding a widget to the app shell without a rank, or attaching the quota
indicator to the file browser. -/
inductive Effect where
  | consoleLog (msg : String)
  | labShellAdd (widget : String) (area : String) (rank : Nat)
  | appShellAdd (widget : String) (area : String)
  | attachQuotaIndicator (target : String)
deriving DecidableEq

/-- Whether an effect adds a widget to a shell panel region. -/
def Effect.isShellAdd : Effect → Bool
  | .labShellAdd _ _ _ => true
  | .appShellAdd _ _ => true
  | _ => false

/-- The static plugin declaration fields of a `JupyterFrontEndPlugin` in
`src/index.ts`: id, description, autoStart, and the required/optional
service tokens. -/
structure PluginDecl where
  id : String
  description : String
  autoStart : Bool
  requiresTokens : List String
  optionalTokens : List String
deriving DecidableEq

/-- `sharesPlugin` of `src/index.ts` (lines 15–33): requires
`IDefaultFileBrowser`, optionally uses `ILabShell`. -/
def sharesPlugin : PluginDecl :=
  ⟨"@cs3org/cs3-jupyter-client:shares",
   "Browse CERNBox shared folders from the JupyterLab sidebar",
   true, ["IDefaultFileBrowser"], ["ILabShell"]⟩

/-- `spacesPlugin` of `src/index.ts` (lines 42–60). -/
def spacesPlugin : PluginDecl :=
  ⟨"@cs3org/cs3-jupyter-client:spaces",
   "Navigate CERNBox Spaces from the JupyterLab sidebar",
   true, ["IDefaultFileBrowser"], ["ILabShell"]⟩

/-- `quotaPlugin` of `src/index.ts` (lines 68–77): requires only
`IDefaultFileBrowser` and has no optional tokens. -/
def quotaPlugin : PluginDecl :=
  ⟨"@cs3org/cs3-jupyter-client:quota",
   "CERNBox storage quota indicator in the file browser",
   true, ["IDefaultFileBrowser"], []⟩

/-- The default export of `src/index.ts` (line 79). -/
def defaultExport : List PluginDecl := [sharesPlugin, spacesPlugin, quotaPlugin]

/-- The effects of `sharesPlugin.activate` (lines 21–32): log, then add the
SharesWidget to the left area — at rank 120 through the lab shell when one
is available, through `app.shell` without a rank otherwise. -/
def sharesActivate (labShellAvailable : Bool) : List Effect :=
  [.consoleLog "[cs3org/cs3-jupyter-client] Activating shares plugin"] ++
    (if labShellAvailable then [.labShellAdd "SharesWidget" "left" 120]
     else [.appShellAdd "SharesWidget" "left"])

/-- The effects of `spacesPlugin.activate` (lines 48–59): as for shares but
with the SpacesWidget at rank 121. -/
def spacesActivate (labShellAvailable : Bool) : List Effect :=
  [.consoleLog "[cs3org/cs3-jupyter-client] Activating spaces plugin"] ++
    (if labShellAvailable then [.labShellAdd "SpacesWidget" "left" 121]
     else [.appShellAdd "SpacesWidget" "left"])

/-- The effects of `quotaPlugin.activate` (lines 73–76): log, then attach
the quota indicator to the default file browser; no shell interaction. -/
def quotaActivate : List Effect :=
  [.consoleLog "[cs3org/cs3-jupyter-client] Activating quota plugin",
   .attachQuotaIndicator "fileBrowser"]

end IndexTs

end CS3

/-! ## Helper lemmas -/

namespace CS3

theorem digitsAux_eq (fuel n : Nat) (h : n ≤ fuel) : digitsAux fuel n = Nat.digits 10 n := by
  induction fuel generalizing n with
  | zero => interval_cases n; simp [digitsAux]
  | succ fuel ih =>
    match n with
    | 0 => simp [digitsAux]
    | m + 1 =>
      rw [digitsAux, ih ((m + 1) / 10) (by omega : (m + 1) / 10 ≤ fuel),
        Nat.digits_def' (by norm_num : (1 : ℕ) < 10) (Nat.succ_pos m)]

theorem charToDigit_digitToChar : ∀ d < 10, charToDigit (digitToChar d) = d := by decide

theorem digitsAux_lt (n : Nat) : ∀ d ∈ digitsAux n n, d < 10 := by
  rw [digitsAux_eq n n le_rfl]
  exact fun d hd => Nat.digits_lt_base (by norm_num) hd

theorem map_digitToChar_inj {l₁ l₂ : List Nat} (h₁ : ∀ d ∈ l₁, d < 10) (h₂ : ∀ d ∈ l₂, d < 10)
    (h : l₁.map digitToChar = l₂.map digitToChar) : l₁ = l₂ := by
  have e₁ : (l₁.map digitToChar).map charToDigit = l₁ := by
    rw [List.map_map]
    have h' : l₁.map (charToDigit ∘ digitToChar) = l₁.map id :=
      List.map_congr_left (fun d hd => charToDigit_digitToChar d (h₁ d hd))
    simpa using h'
  have e₂ : (l₂.map digitToChar).map charToDigit = l₂ := by
    rw [List.map_map]
    have h' : l₂.map (charToDigit ∘ digitToChar) = l₂.map id :=
      List.map_congr_left (fun d hd => charToDigit_digitToChar d (h₂ d hd))
    simpa using h'
  rw [← e₁, ← e₂, h]

theorem natChars_inj {a b : Nat} (h : natChars a = natChars b) : a = b := by
  unfold natChars at h
  have h' : (digitsAux a a).reverse = (digitsAux b b).reverse :=
    map_digitToChar_inj (fun d hd => digitsAux_lt a d (List.mem_reverse.mp hd))
      (fun d hd => digitsAux_lt b d (List.mem_reverse.mp hd)) h
  have h'' : digitsAux a a = digitsAux b b := List.reverse_injective h'
  rw [digitsAux_eq a a le_rfl, digitsAux_eq b b le_rfl] at h''
  exact Nat.digits_inj_iff.mp h''

theorem strData_append (s t : String) : (s ++ t).data = s.data ++ t.data := by
  cases s; cases t; rfl

theorem withSuffix_inj (c : String) {j k : Nat} (h : withSuffix c j = withSuffix c k) : j = k := by
  unfold withSuffix at h
  have hd : ((c ++ " (").data ++ natChars j) ++ ")".data
      = ((c ++ " (").data ++ natChars k) ++ ")".data := by
    have h' := congrArg String.data h
    simpa [strData_append, natStr] using h'
  have h1 : (c ++ " (").data ++ natChars j = (c ++ " (").data ++ natChars k :=
    List.append_cancel_right hd
  exact natChars_inj (List.append_cancel_left h1)

theorem exists_free (taken : List String) (c : String) :
    ∃ i < taken.length + 1, withSuffix c (2 + i) ∉ taken := by
  by_contra hall
  push_neg at hall
  set L : List String := (List.range (taken.length + 1)).map (fun i => withSuffix c (2 + i))
    with hL
  have hnd : L.Nodup := by
    refine List.Nodup.map ?_ (List.nodup_range _)
    intro i j hij
    have h' := withSuffix_inj c hij
    omega
  have hsub : L ⊆ taken := by
    intro x hx
    rw [hL, List.mem_map] at hx
    obtain ⟨i, hi, rfl⟩ := hx
    exact hall i (List.mem_range.mp hi)
  have hcard : L.length ≤ taken.length := by
    calc L.length = L.toFinset.card := (List.toFinset_card_of_nodup hnd).symm
    _ ≤ taken.toFinset.card := Finset.card_le_card (fun x hx =>
        List.mem_toFinset.mpr (hsub (List.mem_toFinset.mp hx)))
    _ ≤ taken.length := taken.toFinset_card_le
  simp [hL] at hcard

theorem searchFrom_not_mem (taken : List String) (c : String) :
    ∀ fuel k, (∃ i < fuel, withSuffix c (k + i) ∉ taken) →
      searchFrom taken c k fuel ∉ taken := by
  intro fuel
  induction fuel with
  | zero => rintro k ⟨i, hi, _⟩; omega
  | succ fuel ih =>
    rintro k ⟨i, hi, hfree⟩
    rw [searchFrom]
    by_cases hk : withSuffix c k ∈ taken
    · have hi0 : i ≠ 0 := by
        rintro rfl
        exact hfree hk
      simp only [hk, if_true]
      refine ih (k + 1) ⟨i - 1, by omega, ?_⟩
      have he : k + 1 + (i - 1) = k + i := by omega
      rw [he]
      exact hfree
    · rw [if_neg hk]
      exact hk

theorem pick_not_mem (taken : List String) (c : String) : pick taken c ∉ taken := by
  unfold pick
  by_cases hc : c ∈ taken
  · rw [if_pos hc]
    obtain ⟨i, hi, hfree⟩ := exists_free taken c
    exact searchFrom_not_mem taken c (taken.length + 1) 2 ⟨i, hi, hfree⟩
  · rw [if_neg hc]
    exact hc

theorem resolveAux_paths (mount : String) :
    ∀ (es : List Entity) (taken : List String),
      ((resolveAux mount es taken).map Prod.snd).Nodup ∧
      ∀ p ∈ (resolveAux mount es taken).map Prod.snd, p ∉ taken := by
  intro es
  induction es with
  | nil => intro taken; simp [resolveAux]
  | cons e es ih =>
    intro taken
    rw [resolveAux]
    obtain ⟨hnd, hdis⟩ := ih (pick taken (candidate mount e) :: taken)
    constructor
    · rw [List.map_cons, List.nodup_cons]
      exact ⟨fun hmem => (hdis _ hmem) (List.mem_cons_self _ _), hnd⟩
    · intro p hp
      rw [List.map_cons, List.mem_cons] at hp
      rcases hp with rfl | hp
      · exact pick_not_mem taken _
      · intro hmem
        exact (hdis p hp) (List.mem_cons_of_mem _ hmem)

theorem resolveAux_fst (mount : String) :
    ∀ (es : List Entity) (taken : List String),
      (resolveAux mount es taken).map Prod.fst = es.map Entity.id := by
  intro es
  induction es with
  | nil => intro taken; simp [resolveAux]
  | cons e es ih => intro taken; simp [resolveAux, ih]

theorem classify_of_pos (s : QuotaSnapshot) (h : s.totalBytes ≠ 0) :
    classify s =
      (if (95 : ℚ) / 100 ≤ (s.usedBytes : ℚ) / (s.totalBytes : ℚ) then QuotaClass.critical
       else if (80 : ℚ) / 100 ≤ (s.usedBytes : ℚ) / (s.totalBytes : ℚ) then QuotaClass.warning
       else QuotaClass.normal) := by
  unfold classify fractionUsed
  rw [if_neg h]

end CS3

/-! ## Claim theorems -/

namespace CS3

/-- C1: For every batch of entities passed to `PathResolver.resolve`, the
resulting `localPath` values are pairwise distinct — even when two entities
of the batch have identical sanitized display names, the resolver
disambiguates by numeric suffix and never silently produces a collision. -/
theorem resolve_localPaths_pairwise_distinct (mount : String) (batch : List Entity) :
    (resolve mount batch).Pairwise (fun a b => a.2 ≠ b.2) := by
  have h := (resolveAux_paths mount batch []).1
  exact List.pairwise_map.mp h

/-- C2: `PathResolver.resolve` is deterministic — identical input content in
identical order yields identical output mappings, and a call after any
history of prior calls produces exactly `resolve` of its own batch,
independent of the history (the resolver keeps no memory of prior
assignments). -/
theorem resolve_deterministic :
    (∀ (mount : String) (b₁ b₂ : List Entity), b₁ = b₂ →
      resolve mount b₁ = resolve mount b₂) ∧
    (∀ (mount : String) (history : List (List Entity)) (b : List Entity),
      resolveCalls mount (history ++ [b]) = resolveCalls mount history ++ [resolve mount b]) := by
  constructor
  · intro mount b₁ b₂ h
    rw [h]
  · intro mount history b
    simp [resolveCalls]

/-- Witness for C2 at a concrete batch. -/
theorem resolve_deterministic_witness :
    resolve "/Shares" [⟨"s1", "Physics", "/eos/shares/1"⟩]
      = resolve "/Shares" [⟨"s1", "Physics", "/eos/shares/1"⟩] :=
  resolve_deterministic.1 "/Shares" _ _ rfl

/-- C3: a failing refresh never modifies the current snapshot: a failing
fetch completion leaves `current` unchanged in any state, and after a
successful fetch returning `[A, B]` a subsequent failing fetch leaves
`current` equal to `[A, B]` while the failure is delivered to subscribers as
a distinct "refresh failed" notification. -/
theorem refresh_failure_retains_snapshot :
    (∀ (m : EntityListModel) (err : FetchError),
      current (stepModel m (.fetchComplete (.error err))).state = current m) ∧
    (∀ (m : EntityListModel) (A B : Entity) (err : FetchError), m.inFlight = false →
      current (runModel m [.refreshCall, .fetchComplete (.ok [A, B]),
        .refreshCall, .fetchComplete (.error err)]).state = [A, B] ∧
      (runModel m [.refreshCall, .fetchComplete (.ok [A, B]),
        .refreshCall, .fetchComplete (.error err)]).notifications
        = [.snapshot [A, B], .refreshFailed err]) := by
  constructor
  · intro m err
    unfold stepModel current
    by_cases h : m.inFlight <;> simp [h]
  · intro m A B err h
    simp [runModel, stepModel, current, h]

/-- Witness for C3 at a concrete model state and entities. -/
theorem refresh_failure_retains_snapshot_witness :
    current (runModel ⟨[], false⟩ [.refreshCall,
        .fetchComplete (.ok [⟨"a", "A", "pa"⟩, ⟨"b", "B", "pb"⟩]),
        .refreshCall, .fetchComplete (.error .transient)]).state
      = [⟨"a", "A", "pa"⟩, ⟨"b", "B", "pb"⟩] ∧
    (runModel ⟨[], false⟩ [.refreshCall,
        .fetchComplete (.ok [⟨"a", "A", "pa"⟩, ⟨"b", "B", "pb"⟩]),
        .refreshCall, .fetchComplete (.error .transient)]).notifications
      = [.snapshot [⟨"a", "A", "pa"⟩, ⟨"b", "B", "pb"⟩], .refreshFailed .transient] :=
  refresh_failure_retains_snapshot.2 ⟨[], false⟩ ⟨"a", "A", "pa"⟩ ⟨"b", "B", "pb"⟩ .transient rfl

/-- C4: two `refresh()` calls issued before the first fetch completes
coalesce — a `refresh()` while a fetch is in flight issues no new fetch,
and the trace refresh–refresh–complete issues exactly one fetch and
notifies subscribers exactly once. -/
theorem refresh_coalesces :
    (∀ m : EntityListModel, m.inFlight = true →
      (stepModel m .refreshCall).fetchesIssued = 0) ∧
    (∀ (m : EntityListModel) (xs : List Entity), m.inFlight = false →
      (runModel m [.refreshCall, .refreshCall, .fetchComplete (.ok xs)]).fetchesIssued = 1 ∧
      (runModel m [.refreshCall, .refreshCall, .fetchComplete (.ok xs)]).notifications
        = [.snapshot xs]) := by
  constructor
  · intro m h
    simp [stepModel, h]
  · intro m xs h
    simp [runModel, stepModel, h]

/-- Witness for C4 at a concrete model state and batch. -/
theorem refresh_coalesces_witness :
    (stepModel ⟨[], true⟩ .refreshCall).fetchesIssued = 0 ∧
    ((runModel ⟨[], false⟩ [.refreshCall, .refreshCall,
        .fetchComplete (.ok [⟨"a", "A", "pa"⟩])]).fetchesIssued = 1 ∧
      (runModel ⟨[], false⟩ [.refreshCall, .refreshCall,
        .fetchComplete (.ok [⟨"a", "A", "pa"⟩])]).notifications
        = [.snapshot [⟨"a", "A", "pa"⟩]]) :=
  ⟨refresh_coalesces.1 ⟨[], true⟩ rfl,
   refresh_coalesces.2 ⟨[], false⟩ [⟨"a", "A", "pa"⟩] rfl⟩

/-- C5: for every QuotaSnapshot with `totalBytes == 0`, `classify` returns
`unknown` and no fraction-used value is computed (so no division by zero is
ever performed); `classify` is a total function and never throws. -/
theorem classify_zero_total_unknown (s : QuotaSnapshot) (h : s.totalBytes = 0) :
    classify s = .unknown ∧ fractionUsed s = none := by
  simp [classify, fractionUsed, h]

/-- Witness for C5 at a concrete snapshot. -/
theorem classify_zero_total_unknown_witness :
    classify ⟨5, 0⟩ = .unknown ∧ fractionUsed ⟨5, 0⟩ = none :=
  classify_zero_total_unknown ⟨5, 0⟩ rfl

/-- C6: `classify` is a pure function of its snapshot with fixed thresholds:
when `totalBytes > 0` it returns `critical` exactly when the used fraction
is at least 95%, `warning` exactly when it is at least 80% (and below 95%),
and `normal` exactly when it is below 80%; in particular
`classify {usedBytes: 950, totalBytes: 1000} = critical` and
`classify {usedBytes: 100, totalBytes: 1000} = normal`. -/
theorem classify_thresholds :
    (∀ s : QuotaSnapshot, 0 < s.totalBytes →
      ((classify s = .critical ↔
          (95 : ℚ) / 100 ≤ (s.usedBytes : ℚ) / (s.totalBytes : ℚ)) ∧
       (classify s = .warning ↔
          (80 : ℚ) / 100 ≤ (s.usedBytes : ℚ) / (s.totalBytes : ℚ) ∧
            (s.usedBytes : ℚ) / (s.totalBytes : ℚ) < 95 / 100) ∧
       (classify s = .normal ↔
          (s.usedBytes : ℚ) / (s.totalBytes : ℚ) < 80 / 100))) ∧
    classify ⟨950, 1000⟩ = .critical ∧ classify ⟨100, 1000⟩ = .normal := by
  refine ⟨?_, ?_, ?_⟩
  · intro s hs
    rw [classify_of_pos s (Nat.pos_iff_ne_zero.mp hs)]
    split_ifs with h1 h2
    · exact ⟨⟨fun _ => h1, fun _ => rfl⟩,
        ⟨False.elim, fun hh => absurd h1 (not_le.mpr hh.2)⟩,
        ⟨False.elim, fun hh => absurd h1 (not_le.mpr (hh.trans (by norm_num)))⟩⟩
    · exact ⟨⟨False.elim, fun hp => absurd hp h1⟩,
        ⟨fun _ => ⟨h2, not_le.mp h1⟩, fun _ => rfl⟩,
        ⟨False.elim, fun hh => absurd h2 (not_le.mpr hh)⟩⟩
    · exact ⟨⟨False.elim, fun hp => absurd hp h1⟩,
        ⟨False.elim, fun hh => absurd hh.1 h2⟩,
        ⟨fun _ => not_le.mp h2, fun _ => rfl⟩⟩
  · norm_num [classify, fractionUsed]
  · norm_num [classify, fractionUsed]

/-- Witness for C6 at a concrete snapshot. -/
theorem classify_thresholds_witness :
    (0 : Nat) < 1000 ∧ (classify ⟨950, 1000⟩ = .critical ↔
      (95 : ℚ) / 100 ≤ ((950 : Nat) : ℚ) / ((1000 : Nat) : ℚ)) :=
  ⟨by decide, (classify_thresholds.1 ⟨950, 1000⟩ (by decide)).1⟩

/-- C7: resolving `[{id:"s1", displayName:"Physics"}]` under the `/Shares`
mount yields `{"s1": "/Shares/Physics"}`, two entities named `Physics`
yield `"/Shares/Physics"` and `"/Shares/Physics (2)"`, and further
collisions get `" (3)"` — suffixes assigned in the stable supplied order. -/
theorem resolve_end_to_end :
    resolve "/Shares" [⟨"s1", "Physics", "/eos/shares/1"⟩]
      = [("s1", "/Shares/Physics")] ∧
    resolve "/Shares" [⟨"s1", "Physics", "/eos/shares/1"⟩, ⟨"s2", "Physics", "/eos/shares/2"⟩]
      = [("s1", "/Shares/Physics"), ("s2", "/Shares/Physics (2)")] ∧
    resolve "/Shares" [⟨"s1", "Physics", "p"⟩, ⟨"s2", "Physics", "q"⟩, ⟨"s3", "Physics", "r"⟩]
      = [("s1", "/Shares/Physics"), ("s2", "/Shares/Physics (2)"),
         ("s3", "/Shares/Physics (3)")] :=
  ⟨by decide, by decide, by decide⟩

/-- C8: `PathResolver.resolve` is total — for every input batch it returns a
mapping whose keys are exactly the supplied entity ids in order (it never
fails), and an entity with an empty display name degrades gracefully to the
raw id as its candidate. -/
theorem resolve_total :
    (∀ (mount : String) (batch : List Entity),
      (resolve mount batch).map Prod.fst = batch.map Entity.id) ∧
    (∀ (mount : String) (e : Entity), e.displayName = "" →
      candidate mount e = mount ++ "/" ++ e.id) := by
  constructor
  · intro mount batch
    exact resolveAux_fst mount batch []
  · intro mount e h
    unfold candidate
    rw [h]
    rfl

/-- Witness for C8 at a concrete entity with an empty display name. -/
theorem resolve_total_witness :
    candidate "/Shares" ⟨"id1", "", "rp"⟩ = "/Shares" ++ "/" ++ "id1" :=
  resolve_total.2 "/Shares" ⟨"id1", "", "rp"⟩ rfl

/-- C9: each sidebar plugin activation mounts its widget to the left shell
area exactly once — through the lab shell at the fixed ranks 120 (Shares)
and 121 (Spaces) when one is available, so Shares precedes Spaces, and
through `app.shell` without a rank when the lab shell is null. -/
theorem sidebar_plugins_mount_once_ranked :
    ((IndexTs.sharesActivate true).filter IndexTs.Effect.isShellAdd
      = [.labShellAdd "SharesWidget" "left" 120]) ∧
    ((IndexTs.spacesActivate true).filter IndexTs.Effect.isShellAdd
      = [.labShellAdd "SpacesWidget" "left" 121]) ∧
    ((IndexTs.sharesActivate false).filter IndexTs.Effect.isShellAdd
      = [.appShellAdd "SharesWidget" "left"]) ∧
    ((IndexTs.spacesActivate false).filter IndexTs.Effect.isShellAdd
      = [.appShellAdd "SpacesWidget" "left"]) ∧
    (∀ ls : Bool, ((IndexTs.sharesActivate ls).filter IndexTs.Effect.isShellAdd).length = 1 ∧
      ((IndexTs.spacesActivate ls).filter IndexTs.Effect.isShellAdd).length = 1) ∧
    120 < 121 := by
  refine ⟨by decide, by decide, by decide, by decide, ?_, by decide⟩
  intro ls
  cases ls <;> exact ⟨by decide, by decide⟩

/-- C10: activating the quota plugin never adds a widget to the shell — its
effects are only the log and attaching the quota indicator to the provided
default file browser — and, unlike the two sidebar plugins, its declaration
does not mention `ILabShell` among its required or optional tokens. -/
theorem quota_plugin_no_shell_add :
    (IndexTs.quotaActivate.filter IndexTs.Effect.isShellAdd = []) ∧
    (IndexTs.Effect.attachQuotaIndicator "fileBrowser" ∈ IndexTs.quotaActivate) ∧
    (IndexTs.quotaPlugin.requiresTokens = ["IDefaultFileBrowser"]) ∧
    ("ILabShell" ∉ IndexTs.quotaPlugin.requiresTokens ++ IndexTs.quotaPlugin.optionalTokens) ∧
    ("ILabShell" ∈ IndexTs.sharesPlugin.optionalTokens) ∧
    ("ILabShell" ∈ IndexTs.spacesPlugin.optionalTokens) ∧
    (IndexTs.defaultExport = [IndexTs.sharesPlugin, IndexTs.spacesPlugin, IndexTs.quotaPlugin]) := by
  decide

end CS3
